import Mathlib

/-!
# Verification of the refinement-list and configure connectors

A shallow embedding of `connectRefinementList` (src/unnamed/part_000) and
`connectConfigure` (src/src/connectors/configure/connectConfigure.ts),
together with proofs of the specified properties.

JavaScript objects used as string-keyed maps are embedded as association
lists `List (String × α)`; `{...m, [k]: v}` becomes `setKey`, key deletion
becomes `eraseKey`, and property lookup becomes `lookupKey` (returning
`none` for an absent key, the embedding of `undefined`).
-/

namespace InstantSearch

/-- Property lookup on a JS object: `m[k]`, `none` when the key is absent. -/
def lookupKey {α : Type} : List (String × α) → String → Option α
  | [], _ => none
  | (k, v) :: rest, key => if k = key then some v else lookupKey rest key

/-- Key-presence test on a JS object. -/
def containsKey {α : Type} : List (String × α) → String → Bool
  | [], _ => false
  | (k0, _) :: rest, k => k0 = k || containsKey rest k

/-- Key deletion on a JS object (used by the helper when clearing refinements). -/
def eraseKey {α : Type} : List (String × α) → String → List (String × α)
  | [], _ => []
  | (k0, v0) :: rest, k =>
      if k0 = k then eraseKey rest k else (k0, v0) :: eraseKey rest k

/-- In-place replacement of the value stored at a key. -/
def replaceKey {α : Type} : List (String × α) → String → α → List (String × α)
  | [], _, _ => []
  | (k0, v0) :: rest, k, v =>
      if k0 = k then (k, v) :: replaceKey rest k v
      else (k0, v0) :: replaceKey rest k v

/-- The object spread update `{...m, [k]: v}`: replaces the value in place
when the key is present, appends the pair otherwise. -/
def setKey {α : Type} (m : List (String × α)) (k : String) (v : α) : List (String × α) :=
  if containsKey m k then replaceKey m k v
  else m ++ [(k, v)]

/-- The object spread merge `{...a, ...b}`: entries of `b` override entries
of `a`, processed left to right. -/
def spreadMerge {α : Type} (a b : List (String × α)) : List (String × α) :=
  b.foldl (fun acc kv => setKey acc kv.1 kv.2) a

/-! ## The query state (`SearchParameters` of the external search client)

The external client's query-state object, restricted to the fields the two
connectors read or write: conjunctive facet declarations (`facets`),
disjunctive facet declarations (`disjunctiveFacets`), the two per-attribute
refinement maps, and `maxValuesPerFacet` (`none` embeds `undefined`).
-/

structure SearchParameters where
  facets : List String
  disjunctiveFacets : List String
  facetsRefinements : List (String × List String)
  disjunctiveFacetsRefinements : List (String × List String)
  maxValuesPerFacet : Option Nat
deriving Repr, DecidableEq

namespace SearchParameters

/-- Modelled from the spec: `getConjunctiveRefinements` is an accessor of the
external search client (§6); it returns the refinement values stored for the
attribute on the conjunctive channel, empty when none are stored. -/
def getConjunctiveRefinements (s : SearchParameters) (attr : String) : List String :=
  (lookupKey s.facetsRefinements attr).getD []

/-- Modelled from the spec: `getDisjunctiveRefinements` is an accessor of the
external search client (§6), symmetric to `getConjunctiveRefinements`. -/
def getDisjunctiveRefinements (s : SearchParameters) (attr : String) : List String :=
  (lookupKey s.disjunctiveFacetsRefinements attr).getD []

/-- Modelled from the spec: `clearRefinements(attribute)` of the external
search client (§6) removes the attribute's entry from every refinement map. -/
def clearRefinements (s : SearchParameters) (attr : String) : SearchParameters :=
  { s with
      facetsRefinements := eraseKey s.facetsRefinements attr
      disjunctiveFacetsRefinements := eraseKey s.disjunctiveFacetsRefinements attr }

/-- Modelled from the spec: `addFacet` of the external search client (§6)
declares the attribute on the conjunctive channel (a no-op when already
declared). -/
def addFacet (s : SearchParameters) (attr : String) : SearchParameters :=
  if s.facets.contains attr then s
  else { s with facets := s.facets ++ [attr] }

/-- Modelled from the spec: `addDisjunctiveFacet` of the external search
client (§6), symmetric to `addFacet`. -/
def addDisjunctiveFacet (s : SearchParameters) (attr : String) : SearchParameters :=
  if s.disjunctiveFacets.contains attr then s
  else { s with disjunctiveFacets := s.disjunctiveFacets ++ [attr] }

/-- Modelled from the spec: `addFacetRefinement` of the external search
client (§6) appends the value to the attribute's conjunctive refinement list
(a no-op when the value is already refined). -/
def addFacetRefinement (s : SearchParameters) (attr value : String) : SearchParameters :=
  let current := (lookupKey s.facetsRefinements attr).getD []
  if current.contains value then s
  else { s with facetsRefinements := setKey s.facetsRefinements attr (current ++ [value]) }

/-- Modelled from the spec: `addDisjunctiveFacetRefinement` of the external
search client (§6), symmetric to `addFacetRefinement`. -/
def addDisjunctiveFacetRefinement (s : SearchParameters) (attr value : String) :
    SearchParameters :=
  let current := (lookupKey s.disjunctiveFacetsRefinements attr).getD []
  if current.contains value then s
  else { s with
          disjunctiveFacetsRefinements :=
            setKey s.disjunctiveFacetsRefinements attr (current ++ [value]) }

/-- Modelled from the spec: `removeFacet` of the external search client (§6)
clears the attribute's refinements and removes its conjunctive declaration;
it is a no-op when the attribute is not declared conjunctively. -/
def removeFacet (s : SearchParameters) (attr : String) : SearchParameters :=
  if s.facets.contains attr then
    { s.clearRefinements attr with facets := s.facets.filter (fun f => f != attr) }
  else s

/-- Modelled from the spec: `removeDisjunctiveFacet` of the external search
client (§6), symmetric to `removeFacet`. -/
def removeDisjunctiveFacet (s : SearchParameters) (attr : String) : SearchParameters :=
  if s.disjunctiveFacets.contains attr then
    { s.clearRefinements attr with
        disjunctiveFacets := s.disjunctiveFacets.filter (fun f => f != attr) }
  else s

end SearchParameters

/-! ## The serializable UI state

`{ refinementList: { [attribute]: string[] }, configure: { ...key-values } }`
(§6). `configure` values are opaque payloads, embedded as strings. -/

structure UIState where
  refinementList : List (String × List String)
  configure : List (String × String)
deriving Repr, DecidableEq

/-- A UI state with no entries at all. -/
def emptyUIState : UIState := { refinementList := [], configure := [] }

/-! ## The refinement-list connector (src/unnamed/part_000) -/

namespace ConnectRefinementList

/-- One facet value of the primary results, as returned by
`results.getFacetValues`: `{name, count, isRefined}`. -/
structure FacetValue where
  name : String
  count : Nat
  isRefined : Bool
deriving Repr, DecidableEq

/-- A rendered refinement item `{value, label, highlighted, count, isRefined}`. -/
structure RefinementItem where
  label : String
  value : String
  highlighted : String
  count : Nat
  isRefined : Bool
deriving Repr, DecidableEq

/-- `formatItems`: `({ name: label, ...item }) => ({...item, label, value: label,
highlighted: label})`. -/
def formatItems (fv : FacetValue) : RefinementItem :=
  { label := fv.name, value := fv.name, highlighted := fv.name,
    count := fv.count, isRefined := fv.isRefined }

/-- The widget parameters captured at construction, after defaulting
(`sortBy` is consumed by the external `getFacetValues` and not modelled). -/
structure Config where
  attr : String
  operator : String
  limit : Nat
  showMore : Bool
  showMoreLimit : Nat
  escapeFacetValues : Bool
  transformItems : List RefinementItem → List RefinementItem

/-- The connector's construction-time validation: the three `throw`s of
`connectRefinementList` in source order.  A JS falsy `attribute` string is
the empty string; the regex test `/^(and|or)$/.test(operator)` holds exactly
for the two literals. -/
def validateParams (attr operator : String) (limit : Nat) (showMore : Bool)
    (showMoreLimit : Nat) : Except String Unit :=
  if attr = "" then
    Except.error "The attribute option is required."
  else if ¬(operator = "and" ∨ operator = "or") then
    Except.error "The operator must one of: and, or."
  else if showMore = true ∧ showMoreLimit ≤ limit then
    Except.error "showMoreLimit should be greater than limit."
  else
    Except.ok ()

/-- The per-instance mutable closures: `lastResultsFromMainSearch`,
`hasExhaustiveItems`, and the show-more paginator's mode.  The paginator's
mode field is modelled from the spec: `createShowMore` lives in
`lib/enhancers`, which is not under `src/`; §4.3 specifies a toggle between
a base and an expanded mode. -/
structure WidgetMutState where
  lastResultsFromMainSearch : List RefinementItem
  hasExhaustiveItems : Bool
  isShowingMore : Bool
deriving Repr, DecidableEq

/-- The connector's initial mutable state
(`lastResultsFromMainSearch = []`, `hasExhaustiveItems = true`, base mode). -/
def initialMutState : WidgetMutState :=
  { lastResultsFromMainSearch := [], hasExhaustiveItems := true, isShowingMore := false }

/-- Modelled from the spec: `getCurrentLimit` of `createShowMore`
(`lib/enhancers`, not under `src/`); §4.3: `limit` in base mode,
`showMoreLimit` in expanded mode. -/
def getCurrentLimit (cfg : Config) (isShowingMore : Bool) : Nat :=
  if isShowingMore then cfg.showMoreLimit else cfg.limit

/-- The JS comparison `maxValuesPerFacetConfig > currentLimit` where the
left side may be `undefined` (`undefined > n` is `false`). -/
def optGT (a : Option Nat) (b : Nat) : Bool :=
  match a with
  | none => false
  | some m => decide (b < m)

/-- `canShowLess`: `isShowingMore && lastResultsFromMainSearch.length > limit`. -/
def canShowLessCalc (cfg : Config) (ms : WidgetMutState) : Bool :=
  ms.isShowingMore && decide (ms.lastResultsFromMainSearch.length > cfg.limit)

/-- `canShowMore`: `showMore && !isFromSearch && !hasExhaustiveItems`. -/
def canShowMoreCalc (cfg : Config) (ms : WidgetMutState) (isFromSearch : Bool) : Bool :=
  cfg.showMore && !isFromSearch && !ms.hasExhaustiveItems

/-- The data handed to the caller's rendering callback, restricted to the
fields computed by this connector (`createURL`, `refine`, `searchForItems`
and `widgetParams` are pass-through closures). -/
structure RenderPayload where
  items : List RefinementItem
  isFromSearch : Bool
  canRefine : Bool
  isShowingMore : Bool
  canToggleShowMore : Bool
  hasExhaustiveItems : Bool
  isFirstSearch : Bool
deriving Repr, DecidableEq

/-- The connector's local `render` closure: assembles the rendering payload
from the mutable state and the items of this render. -/
def render (cfg : Config) (ms : WidgetMutState) (items : List RefinementItem)
    (isFromSearch isFirstSearch : Bool) : RenderPayload :=
  { items := items
    isFromSearch := isFromSearch
    canRefine := isFromSearch || decide (items.length > 0)
    isShowingMore := ms.isShowingMore
    canToggleShowMore := canShowLessCalc cfg ms || canShowMoreCalc cfg ms isFromSearch
    hasExhaustiveItems := ms.hasExhaustiveItems
    isFirstSearch := isFirstSearch }

/-- The widget object's `render` method (the primary render): slices the
facet values to the current limit, recomputes `hasExhaustiveItems`, caches
the items as `lastResultsFromMainSearch`, and calls the local `render`
closure with `isFromSearch = false`.  Inputs are the facet values pulled
from the results (already ordered by `sortBy`) and the query state's
`maxValuesPerFacet`. -/
def widgetRender (cfg : Config) (ms : WidgetMutState) (facetValues : List FacetValue)
    (stateMaxValuesPerFacet : Option Nat) : WidgetMutState × RenderPayload :=
  let currentLimit := getCurrentLimit cfg ms.isShowingMore
  let items := cfg.transformItems ((facetValues.take currentLimit).map formatItems)
  let hasExhaustiveItems :=
    if optGT stateMaxValuesPerFacet currentLimit then
      decide (facetValues.length ≤ currentLimit)
    else
      decide (facetValues.length < currentLimit)
  let ms' := { ms with
                hasExhaustiveItems := hasExhaustiveItems
                lastResultsFromMainSearch := items }
  (ms', render cfg ms' items false false)

/-- Modelled from the spec: `toggleShowMore` of `createShowMore`
(`lib/enhancers`, not under `src/`); §4.3: flips the mode and replays the
most recently recorded primary render with its original arguments. -/
def toggleShowMore (cfg : Config) (ms : WidgetMutState) (facetValues : List FacetValue)
    (stateMaxValuesPerFacet : Option Nat) : WidgetMutState × RenderPayload :=
  widgetRender cfg { ms with isShowingMore := !ms.isShowingMore }
    facetValues stateMaxValuesPerFacet

/-! ### The facet-value sub-search path (`createSearchForFacetValues`) -/

/-- A pair of highlight tags `{highlightPreTag, highlightPostTag}`. -/
structure HighlightTags where
  highlightPreTag : String
  highlightPostTag : String
deriving Repr, DecidableEq

/-- Modelled from the spec: `TAG_PLACEHOLDER` of `lib/escape-highlight` is
not under `src/`; §4.5 calls them placeholder tags, to be escaped and
replaced post-hoc. -/
def TAG_PLACEHOLDER : HighlightTags :=
  { highlightPreTag := "__ais-highlight__", highlightPostTag := "__/ais-highlight__" }

/-- Modelled from the spec: `TAG_REPLACEMENT` of `lib/escape-highlight` is
not under `src/`; §4.5 calls them literal tags. -/
def TAG_REPLACEMENT : HighlightTags :=
  { highlightPreTag := "<mark>", highlightPostTag := "</mark>" }

/-- The single observable effect of one call to the function returned by
`createSearchForFacetValues`: either a synchronous local re-render, or one
external `searchForFacetValues(attribute, query, limit, tags)` call. -/
inductive SearchForItemsEffect where
  | renderLocal (items : List RefinementItem) (isFromSearch isFirstSearch : Bool)
  | externalCall (attr query : String) (limit : Nat) (tags : HighlightTags)
deriving Repr, DecidableEq

/-- One call of the sub-search closure with query `query`.  The source
condition is `query === '' && lastResultsFromMainSearch`;
`lastResultsFromMainSearch` is always an array (initialised to `[]`), and
arrays are truthy in JS, so the conjunct reduces to the query test. -/
def searchForItems (cfg : Config) (lastResultsFromMainSearch : List RefinementItem)
    (isShowingMore : Bool) (query : String) : SearchForItemsEffect :=
  if query = "" then
    SearchForItemsEffect.renderLocal lastResultsFromMainSearch false false
  else
    let tags :=
      { highlightPreTag :=
          if cfg.escapeFacetValues then TAG_PLACEHOLDER.highlightPreTag
          else TAG_REPLACEMENT.highlightPreTag
        highlightPostTag :=
          if cfg.escapeFacetValues then TAG_PLACEHOLDER.highlightPostTag
          else TAG_REPLACEMENT.highlightPostTag }
    SearchForItemsEffect.externalCall cfg.attr query (getCurrentLimit cfg isShowingMore) tags

/-! ### The projector methods and teardown -/

/-- `getWidgetState(uiState, { searchParameters })`: reads the refinement
values on the channel selected by `operator`; when empty, returns the UI
state unchanged, otherwise writes them under `refinementList[attribute]`. -/
def getWidgetState (cfg : Config) (uiState : UIState)
    (searchParameters : SearchParameters) : UIState :=
  let values :=
    if cfg.operator = "or" then searchParameters.getDisjunctiveRefinements cfg.attr
    else searchParameters.getConjunctiveRefinements cfg.attr
  if values.length = 0 then uiState
  else { uiState with refinementList := setKey uiState.refinementList cfg.attr values }

/-- `getWidgetSearchParameters(searchParameters, { uiState })`: clears the
attribute's refinements, re-registers the facet on the channel selected by
`operator`, raises `maxValuesPerFacet` monotonically, then either writes an
explicit empty refinement entry (when the UI state holds no value array for
the attribute — in JS `undefined` is falsy but `[]` is truthy) or folds the
values into the state through the channel's add-refinement operation. -/
def getWidgetSearchParameters (cfg : Config) (searchParameters : SearchParameters)
    (uiState : UIState) : SearchParameters :=
  let isDisjunctive := cfg.operator = "or"
  let values := lookupKey uiState.refinementList cfg.attr
  let withoutRefinements := searchParameters.clearRefinements cfg.attr
  let withFacetConfiguration :=
    if isDisjunctive then withoutRefinements.addDisjunctiveFacet cfg.attr
    else withoutRefinements.addFacet cfg.attr
  let currentMaxValuesPerFacet := withFacetConfiguration.maxValuesPerFacet.getD 0
  let nextMaxValuesPerFacet :=
    max currentMaxValuesPerFacet (if cfg.showMore then cfg.showMoreLimit else cfg.limit)
  let withMaxValuesPerFacet :=
    { withFacetConfiguration with maxValuesPerFacet := some nextMaxValuesPerFacet }
  match values with
  | none =>
      if isDisjunctive then
        { withMaxValuesPerFacet with
            disjunctiveFacetsRefinements :=
              setKey withMaxValuesPerFacet.disjunctiveFacetsRefinements cfg.attr [] }
      else
        { withMaxValuesPerFacet with
            facetsRefinements := setKey withMaxValuesPerFacet.facetsRefinements cfg.attr [] }
  | some vs =>
      vs.foldl
        (fun parameters value =>
          if isDisjunctive then parameters.addDisjunctiveFacetRefinement cfg.attr value
          else parameters.addFacetRefinement cfg.attr value)
        withMaxValuesPerFacet

/-- `dispose({ state })`: unsets `maxValuesPerFacet`, then removes the facet
from the conjunctive channel when `operator === 'and'`, from the disjunctive
channel otherwise. -/
def dispose (cfg : Config) (state : SearchParameters) : SearchParameters :=
  let withoutMaxValuesPerFacet := { state with maxValuesPerFacet := none }
  if cfg.operator = "and" then withoutMaxValuesPerFacet.removeFacet cfg.attr
  else withoutMaxValuesPerFacet.removeDisjunctiveFacet cfg.attr

end ConnectRefinementList

/-! ## The configure connector (src/src/connectors/configure/connectConfigure.ts) -/

namespace ConnectConfigure

/-- The plain search parameters the configure connector manipulates:
an arbitrary key-value object (values embedded as opaque strings). -/
abbrev PlainParams : Type := List (String × String)

/-- `getWidgetState(uiState)`: `{...uiState, configure: {...uiState.configure,
...widgetParams.searchParameters}}`. -/
def getWidgetState (widgetSearchParameters : PlainParams) (uiState : UIState) : UIState :=
  { uiState with configure := spreadMerge uiState.configure widgetSearchParameters }

/-- Modelled from the spec: `mergeSearchParameters` of `lib/utils` is not
under `src/`; §4.7 says the connector splices its parameter object into the
query state, the second argument's plain parameters overriding the first's. -/
def mergeSearchParameters (state subParameters : PlainParams) : PlainParams :=
  spreadMerge state subParameters

/-- `getWidgetSearchParameters(state, { uiState })`: merges
`{...uiState.configure, ...widgetParams.searchParameters}` over the query
state's plain parameters. -/
def getWidgetSearchParameters (widgetSearchParameters : PlainParams)
    (state : PlainParams) (uiState : UIState) : PlainParams :=
  mergeSearchParameters state (spreadMerge uiState.configure widgetSearchParameters)

end ConnectConfigure

/-! ## Lemmas about the map operations -/

theorem lookupKey_isSome_iff_containsKey {α : Type} (m : List (String × α)) (k : String) :
    (lookupKey m k).isSome = containsKey m k := by
  induction m with
  | nil => rfl
  | cons p rest ih =>
    obtain ⟨k0, v0⟩ := p
    by_cases h : k0 = k
    · simp [lookupKey, containsKey, h]
    · simpa [lookupKey, containsKey, h] using ih

theorem lookupKey_append {α : Type} (a b : List (String × α)) (k : String) :
    lookupKey (a ++ b) k =
      match lookupKey a k with
      | some v => some v
      | none => lookupKey b k := by
  induction a with
  | nil => rfl
  | cons p rest ih =>
    obtain ⟨k0, v0⟩ := p
    by_cases h : k0 = k
    · simp [lookupKey, h]
    · simpa [lookupKey, h] using ih

theorem lookupKey_replaceKey_self {α : Type} (m : List (String × α)) (k : String) (v : α) :
    lookupKey (replaceKey m k v) k = (lookupKey m k).map (fun _ => v) := by
  induction m with
  | nil => rfl
  | cons p rest ih =>
    obtain ⟨k0, v0⟩ := p
    by_cases h : k0 = k
    · subst h
      simp [replaceKey, lookupKey]
    · simpa [replaceKey, lookupKey, h] using ih

theorem lookupKey_replaceKey_other {α : Type} (m : List (String × α)) (k k' : String) (v : α)
    (h : k' ≠ k) : lookupKey (replaceKey m k v) k' = lookupKey m k' := by
  induction m with
  | nil => rfl
  | cons p rest ih =>
    obtain ⟨k0, v0⟩ := p
    by_cases h0 : k0 = k
    · subst h0
      have hne : ¬(k0 = k') := fun hh => h hh.symm
      simpa [replaceKey, lookupKey, hne] using ih
    · by_cases h1 : k0 = k'
      · subst h1
        simp [replaceKey, lookupKey, h0, h]
      · simpa [replaceKey, lookupKey, h0, h1] using ih

theorem lookupKey_eq_none_of_not_containsKey {α : Type} (m : List (String × α)) (k : String)
    (h : containsKey m k = false) : lookupKey m k = none := by
  have hs := lookupKey_isSome_iff_containsKey m k
  rw [h] at hs
  cases hc : lookupKey m k with
  | none => rfl
  | some w => rw [hc] at hs; simp at hs

theorem lookupKey_setKey_self {α : Type} (m : List (String × α)) (k : String) (v : α) :
    lookupKey (setKey m k v) k = some v := by
  unfold setKey
  by_cases h : containsKey m k = true
  · rw [if_pos h, lookupKey_replaceKey_self]
    have hs : (lookupKey m k).isSome = true := by
      rw [lookupKey_isSome_iff_containsKey]; exact h
    cases hc : lookupKey m k with
    | none => rw [hc] at hs; simp at hs
    | some w => rfl
  · rw [if_neg h, lookupKey_append,
      lookupKey_eq_none_of_not_containsKey m k (Bool.eq_false_iff.mpr h)]
    simp [lookupKey]

theorem lookupKey_setKey_other {α : Type} (m : List (String × α)) (k k' : String) (v : α)
    (h : k' ≠ k) : lookupKey (setKey m k v) k' = lookupKey m k' := by
  unfold setKey
  by_cases hc : containsKey m k = true
  · rw [if_pos hc, lookupKey_replaceKey_other m k k' v h]
  · rw [if_neg hc, lookupKey_append]
    have hne : ¬(k = k') := fun hh => h hh.symm
    cases hl : lookupKey m k' with
    | none => simp [lookupKey, hne]
    | some w => simp

theorem lookupKey_eraseKey_self {α : Type} (m : List (String × α)) (k : String) :
    lookupKey (eraseKey m k) k = none := by
  induction m with
  | nil => rfl
  | cons p rest ih =>
    obtain ⟨k0, v0⟩ := p
    by_cases h0 : k0 = k
    · simpa [eraseKey, h0] using ih
    · simpa [eraseKey, lookupKey, h0] using ih

theorem lookupKey_eraseKey_other {α : Type} (m : List (String × α)) (k k' : String)
    (h : k' ≠ k) : lookupKey (eraseKey m k) k' = lookupKey m k' := by
  induction m with
  | nil => rfl
  | cons p rest ih =>
    obtain ⟨k0, v0⟩ := p
    by_cases h0 : k0 = k
    · have hne : ¬(k = k') := fun hh => h hh.symm
      rw [h0]
      simpa [eraseKey, lookupKey, hne] using ih
    · by_cases h1 : k0 = k'
      · subst h1
        simp [eraseKey, lookupKey, h0, h]
      · simpa [eraseKey, lookupKey, h0, h1] using ih

theorem containsKey_eq_false_iff {α : Type} (m : List (String × α)) (k : String) :
    containsKey m k = false ↔ k ∉ m.map Prod.fst := by
  induction m with
  | nil => simp [containsKey]
  | cons p rest ih =>
    obtain ⟨k0, v0⟩ := p
    by_cases h : k0 = k
    · simp [containsKey, h]
    · simpa [containsKey, h, Ne.symm h] using ih

theorem keys_setKey_nodup {α : Type} (m : List (String × α)) (k : String) (v : α)
    (h : (m.map Prod.fst).Nodup) : ((setKey m k v).map Prod.fst).Nodup := by
  unfold setKey
  by_cases hc : containsKey m k = true
  · rw [if_pos hc]
    have : (replaceKey m k v).map Prod.fst = m.map Prod.fst ∨
        ∀ hk : k ∈ m.map Prod.fst, True := Or.inr (fun _ => trivial)
    clear this
    have hkeys : (replaceKey m k v).map Prod.fst =
        (m.map Prod.fst).map (fun k0 => if k0 = k then k else k0) := by
      clear h hc
      induction m with
      | nil => rfl
      | cons p rest ih =>
        obtain ⟨k0, v0⟩ := p
        by_cases h0 : k0 = k
        · subst h0
          simpa [replaceKey] using ih
        · simpa [replaceKey, h0] using ih
    rw [hkeys]
    have hrepl : (m.map Prod.fst).map (fun k0 => if k0 = k then k else k0) = m.map Prod.fst := by
      conv_rhs => rw [← List.map_id (m.map Prod.fst)]
      apply List.map_congr_left
      intro a _
      by_cases ha : a = k
      · rw [if_pos ha, ha]
        rfl
      · rw [if_neg ha]
        rfl
    rw [hrepl]
    exact h
  · rw [if_neg hc]
    rw [List.map_append]
    simp only [List.map_cons, List.map_nil]
    rw [List.nodup_append]
    refine ⟨h, List.nodup_singleton k, ?_⟩
    intro a ha hb
    have : a = k := by simpa using hb
    subst this
    rw [Bool.not_eq_true] at hc
    exact (containsKey_eq_false_iff m a).mp hc ha

theorem keys_spreadMerge_nodup {α : Type} (a b : List (String × α))
    (h : (a.map Prod.fst).Nodup) : ((spreadMerge a b).map Prod.fst).Nodup := by
  induction b generalizing a with
  | nil => exact h
  | cons p rest ih =>
    obtain ⟨k0, v0⟩ := p
    exact ih (setKey a k0 v0) (keys_setKey_nodup a k0 v0 h)

theorem lookupKey_spreadMerge_of_not_containsKey {α : Type} (a b : List (String × α))
    (k : String) (h : containsKey b k = false) :
    lookupKey (spreadMerge a b) k = lookupKey a k := by
  induction b generalizing a with
  | nil => rfl
  | cons p rest ih =>
    obtain ⟨k0, v0⟩ := p
    have h0 : ¬(k0 = k) := by
      intro hk
      rw [containsKey, hk] at h
      simp at h
    have hrest : containsKey rest k = false := by
      rw [containsKey] at h
      simpa [h0] using h
    show lookupKey (spreadMerge (setKey a k0 v0) rest) k = lookupKey a k
    rw [ih (setKey a k0 v0) hrest,
      lookupKey_setKey_other a k0 k v0 (fun hh => h0 hh.symm)]

theorem lookupKey_spreadMerge_of_lookup {α : Type} (a b : List (String × α)) (k : String)
    (v : α) (hn : (b.map Prod.fst).Nodup) (h : lookupKey b k = some v) :
    lookupKey (spreadMerge a b) k = some v := by
  induction b generalizing a with
  | nil => simp [lookupKey] at h
  | cons p rest ih =>
    obtain ⟨k0, v0⟩ := p
    simp only [List.map_cons, List.nodup_cons] at hn
    by_cases h0 : k0 = k
    · subst h0
      rw [lookupKey, if_pos rfl] at h
      have hnc : containsKey rest k0 = false :=
        (containsKey_eq_false_iff rest k0).mpr hn.1
      show lookupKey (spreadMerge (setKey a k0 v0) rest) k0 = some v
      rw [lookupKey_spreadMerge_of_not_containsKey (setKey a k0 v0) rest k0 hnc,
        lookupKey_setKey_self]
      exact h
    · rw [lookupKey, if_neg h0] at h
      show lookupKey (spreadMerge (setKey a k0 v0) rest) k = some v
      exact ih (setKey a k0 v0) hn.2 h

/-! ## Lemmas about the query-state operations -/

namespace SearchParameters

theorem maxValuesPerFacet_addFacetRefinement (s : SearchParameters) (a v : String) :
    (s.addFacetRefinement a v).maxValuesPerFacet = s.maxValuesPerFacet := by
  simp only [addFacetRefinement]
  split <;> rfl

theorem maxValuesPerFacet_addDisjunctiveFacetRefinement (s : SearchParameters) (a v : String) :
    (s.addDisjunctiveFacetRefinement a v).maxValuesPerFacet = s.maxValuesPerFacet := by
  simp only [addDisjunctiveFacetRefinement]
  split <;> rfl

theorem maxValuesPerFacet_addFacet (s : SearchParameters) (a : String) :
    (s.addFacet a).maxValuesPerFacet = s.maxValuesPerFacet := by
  simp only [addFacet]
  split <;> rfl

theorem maxValuesPerFacet_addDisjunctiveFacet (s : SearchParameters) (a : String) :
    (s.addDisjunctiveFacet a).maxValuesPerFacet = s.maxValuesPerFacet := by
  simp only [addDisjunctiveFacet]
  split <;> rfl

theorem getConjunctiveRefinements_addFacetRefinement (s : SearchParameters) (a v w : String) :
    w ∈ (s.addFacetRefinement a v).getConjunctiveRefinements a ↔
      w = v ∨ w ∈ s.getConjunctiveRefinements a := by
  unfold addFacetRefinement getConjunctiveRefinements
  by_cases h : ((lookupKey s.facetsRefinements a).getD []).contains v
  · rw [if_pos h]
    have hv : v ∈ (lookupKey s.facetsRefinements a).getD [] := by
      simpa using h
    constructor
    · exact fun hw => Or.inr hw
    · rintro (rfl | hw)
      · exact hv
      · exact hw
  · rw [if_neg h]
    simp only [lookupKey_setKey_self, Option.getD_some, List.mem_append,
      List.mem_singleton]
    tauto

theorem getDisjunctiveRefinements_addDisjunctiveFacetRefinement
    (s : SearchParameters) (a v w : String) :
    w ∈ (s.addDisjunctiveFacetRefinement a v).getDisjunctiveRefinements a ↔
      w = v ∨ w ∈ s.getDisjunctiveRefinements a := by
  unfold addDisjunctiveFacetRefinement getDisjunctiveRefinements
  by_cases h : ((lookupKey s.disjunctiveFacetsRefinements a).getD []).contains v
  · rw [if_pos h]
    have hv : v ∈ (lookupKey s.disjunctiveFacetsRefinements a).getD [] := by
      simpa using h
    constructor
    · exact fun hw => Or.inr hw
    · rintro (rfl | hw)
      · exact hv
      · exact hw
  · rw [if_neg h]
    simp only [lookupKey_setKey_self, Option.getD_some, List.mem_append,
      List.mem_singleton]
    tauto

theorem facetsRefinements_addFacet (s : SearchParameters) (a : String) :
    (s.addFacet a).facetsRefinements = s.facetsRefinements := by
  simp only [addFacet]
  split <;> rfl

theorem disjunctiveFacetsRefinements_addFacet (s : SearchParameters) (a : String) :
    (s.addFacet a).disjunctiveFacetsRefinements = s.disjunctiveFacetsRefinements := by
  simp only [addFacet]
  split <;> rfl

theorem facetsRefinements_addDisjunctiveFacet (s : SearchParameters) (a : String) :
    (s.addDisjunctiveFacet a).facetsRefinements = s.facetsRefinements := by
  simp only [addDisjunctiveFacet]
  split <;> rfl

theorem disjunctiveFacetsRefinements_addDisjunctiveFacet (s : SearchParameters) (a : String) :
    (s.addDisjunctiveFacet a).disjunctiveFacetsRefinements = s.disjunctiveFacetsRefinements := by
  simp only [addDisjunctiveFacet]
  split <;> rfl

theorem maxValuesPerFacet_foldl_addFacetRefinement (vs : List String) (s : SearchParameters)
    (a : String) :
    (vs.foldl (fun p v => p.addFacetRefinement a v) s).maxValuesPerFacet =
      s.maxValuesPerFacet := by
  induction vs generalizing s with
  | nil => rfl
  | cons v rest ih =>
    rw [List.foldl_cons, ih, maxValuesPerFacet_addFacetRefinement]

theorem maxValuesPerFacet_foldl_addDisjunctiveFacetRefinement (vs : List String)
    (s : SearchParameters) (a : String) :
    (vs.foldl (fun p v => p.addDisjunctiveFacetRefinement a v) s).maxValuesPerFacet =
      s.maxValuesPerFacet := by
  induction vs generalizing s with
  | nil => rfl
  | cons v rest ih =>
    rw [List.foldl_cons, ih, maxValuesPerFacet_addDisjunctiveFacetRefinement]

theorem mem_getConjunctiveRefinements_foldl (vs : List String) (s : SearchParameters)
    (a w : String) :
    w ∈ (vs.foldl (fun p v => p.addFacetRefinement a v) s).getConjunctiveRefinements a ↔
      w ∈ vs ∨ w ∈ s.getConjunctiveRefinements a := by
  induction vs generalizing s with
  | nil => simp
  | cons v rest ih =>
    rw [List.foldl_cons, ih, getConjunctiveRefinements_addFacetRefinement,
      List.mem_cons]
    tauto

theorem getDisjunctiveRefinements_clear_add_withMax (sp : SearchParameters) (a : String)
    (m : Option Nat) :
    SearchParameters.getDisjunctiveRefinements
      { (sp.clearRefinements a).addDisjunctiveFacet a with maxValuesPerFacet := m } a = [] := by
  unfold getDisjunctiveRefinements
  show (lookupKey ((sp.clearRefinements a).addDisjunctiveFacet a).disjunctiveFacetsRefinements
    a).getD [] = []
  rw [disjunctiveFacetsRefinements_addDisjunctiveFacet]
  show (lookupKey (eraseKey sp.disjunctiveFacetsRefinements a) a).getD [] = []
  rw [lookupKey_eraseKey_self]
  rfl

theorem getConjunctiveRefinements_clear_add_withMax (sp : SearchParameters) (a : String)
    (m : Option Nat) :
    SearchParameters.getConjunctiveRefinements
      { (sp.clearRefinements a).addFacet a with maxValuesPerFacet := m } a = [] := by
  unfold getConjunctiveRefinements
  show (lookupKey ((sp.clearRefinements a).addFacet a).facetsRefinements a).getD [] = []
  rw [facetsRefinements_addFacet]
  show (lookupKey (eraseKey sp.facetsRefinements a) a).getD [] = []
  rw [lookupKey_eraseKey_self]
  rfl

theorem lookupKey_disj_clear_add_withMax (sp : SearchParameters) (a : String)
    (m : Option Nat) :
    lookupKey ({ (sp.clearRefinements a).addDisjunctiveFacet a with
        maxValuesPerFacet := m } : SearchParameters).disjunctiveFacetsRefinements a = none := by
  show lookupKey ((sp.clearRefinements a).addDisjunctiveFacet a).disjunctiveFacetsRefinements
    a = none
  rw [disjunctiveFacetsRefinements_addDisjunctiveFacet]
  exact lookupKey_eraseKey_self _ _

theorem lookupKey_conj_clear_add_withMax (sp : SearchParameters) (a : String)
    (m : Option Nat) :
    lookupKey ({ (sp.clearRefinements a).addFacet a with
        maxValuesPerFacet := m } : SearchParameters).facetsRefinements a = none := by
  show lookupKey ((sp.clearRefinements a).addFacet a).facetsRefinements a = none
  rw [facetsRefinements_addFacet]
  exact lookupKey_eraseKey_self _ _

theorem mem_getDisjunctiveRefinements_foldl (vs : List String) (s : SearchParameters)
    (a w : String) :
    w ∈ (vs.foldl (fun p v => p.addDisjunctiveFacetRefinement a v) s).getDisjunctiveRefinements a ↔
      w ∈ vs ∨ w ∈ s.getDisjunctiveRefinements a := by
  induction vs generalizing s with
  | nil => simp
  | cons v rest ih =>
    rw [List.foldl_cons, ih, getDisjunctiveRefinements_addDisjunctiveFacetRefinement,
      List.mem_cons]
    tauto

end SearchParameters

/-! ## The claims -/

namespace ConnectRefinementList

/-- C4: constructing a refinement-list connector throws a configuration
error exactly when `attribute` is falsy, or `operator` is not `and`/`or`,
or `showMore` is true and `showMoreLimit <= limit`; the check is a pure
synchronous function of the parameters and succeeds in every other case. -/
theorem claim_validation (a operator : String) (limit : Nat) (showMore : Bool)
    (showMoreLimit : Nat) :
    (∃ e, validateParams a operator limit showMore showMoreLimit = Except.error e) ↔
      (a = "" ∨ (operator ≠ "and" ∧ operator ≠ "or") ∨
        (showMore = true ∧ showMoreLimit ≤ limit)) := by
  unfold validateParams
  by_cases h1 : a = ""
  · rw [if_pos h1]
    exact iff_of_true ⟨"The attribute option is required.", rfl⟩ (Or.inl h1)
  · rw [if_neg h1]
    by_cases h2 : operator = "and" ∨ operator = "or"
    · rw [if_neg (not_not_intro h2)]
      by_cases h3 : showMore = true ∧ showMoreLimit ≤ limit
      · rw [if_pos h3]
        exact iff_of_true ⟨"showMoreLimit should be greater than limit.", rfl⟩
          (Or.inr (Or.inr h3))
      · rw [if_neg h3]
        refine iff_of_false ?_ ?_
        · rintro ⟨e, he⟩
          cases he
        · rintro (h | ⟨ha, hb⟩ | h)
          · exact h1 h
          · rcases h2 with h2 | h2
            · exact ha h2
            · exact hb h2
          · exact h3 h
    · rw [if_pos h2]
      refine iff_of_true ⟨"The operator must one of: and, or.", rfl⟩ (Or.inr (Or.inl ?_))
      push_neg at h2
      exact h2

/-- C5: calling `searchForItems` with the empty query synchronously
re-renders the most recently cached primary-search items with
`isFromSearch = false` and issues no external call; with a non-empty query
it issues exactly one external `searchForFacetValues` call carrying the
attribute, the query, the current limit and the tags selected by
`escapeFacetValues`. -/
theorem claim_searchForItems (cfg : Config) (last : List RefinementItem) (showing : Bool) :
    (searchForItems cfg last showing "" = SearchForItemsEffect.renderLocal last false false)
    ∧ ∀ q : String, q ≠ "" →
        searchForItems cfg last showing q =
          SearchForItemsEffect.externalCall cfg.attr q (getCurrentLimit cfg showing)
            (if cfg.escapeFacetValues then TAG_PLACEHOLDER else TAG_REPLACEMENT) := by
  constructor
  · rfl
  · intro q hq
    unfold searchForItems
    rw [if_neg hq]
    by_cases he : cfg.escapeFacetValues <;> simp [he]

/-- Witness for C5 at the query `"a"` on a concrete connector. -/
theorem claim_searchForItems_witness :
    ("a" ≠ "" ∧
      searchForItems ⟨"brand", "or", 10, false, 20, true, fun xs => xs⟩ [] false "a" =
        SearchForItemsEffect.externalCall "brand" "a" 10 TAG_PLACEHOLDER) := by
  refine ⟨by decide, ?_⟩
  have h := (claim_searchForItems ⟨"brand", "or", 10, false, 20, true, fun xs => xs⟩ []
    false).2 "a" (by decide)
  simpa [getCurrentLimit] using h

/-- C1: after every primary render, `hasExhaustiveItems` holds exactly when
the number of returned facet values is at most the current limit if the
query state's `maxValuesPerFacet` strictly exceeds the current limit, and
strictly below the current limit otherwise; in particular with `limit = 2`,
three returned values and `maxValuesPerFacet ≤ 2` the flag is false, and
with one returned value it is true. -/
theorem claim_exhaustiveness :
    (∀ (cfg : Config) (ms : WidgetMutState) (facetValues : List FacetValue)
        (mvpf : Option Nat),
      ((widgetRender cfg ms facetValues mvpf).1.hasExhaustiveItems = true ↔
        (match mvpf with
         | some m =>
             if getCurrentLimit cfg ms.isShowingMore < m then
               facetValues.length ≤ getCurrentLimit cfg ms.isShowingMore
             else facetValues.length < getCurrentLimit cfg ms.isShowingMore
         | none => facetValues.length < getCurrentLimit cfg ms.isShowingMore)))
    ∧ (∀ m : Nat, m ≤ 2 →
        (widgetRender ⟨"brand", "or", 2, false, 20, true, fun xs => xs⟩ initialMutState
          [⟨"Apple", 10, false⟩, ⟨"Samsung", 5, false⟩, ⟨"Sony", 3, false⟩]
          (some m)).1.hasExhaustiveItems = false)
    ∧ (∀ mvpf : Option Nat,
        (widgetRender ⟨"brand", "or", 2, false, 20, true, fun xs => xs⟩ initialMutState
          [⟨"Apple", 10, false⟩] mvpf).1.hasExhaustiveItems = true) := by
  refine ⟨?_, ?_, ?_⟩
  · intro cfg ms fv mvpf
    cases mvpf with
    | none => simp [widgetRender, optGT]
    | some m =>
      by_cases h : getCurrentLimit cfg ms.isShowingMore < m
      · simp [widgetRender, optGT, h]
      · simp [widgetRender, optGT, h]
  · intro m hm
    have h2 : ¬(2 < m) := by omega
    simp [widgetRender, optGT, getCurrentLimit, initialMutState, h2]
  · intro mvpf
    cases mvpf with
    | none => simp [widgetRender, optGT, getCurrentLimit, initialMutState]
    | some m =>
      by_cases h : 2 < m
      · simp [widgetRender, optGT, getCurrentLimit, initialMutState, h]
      · simp [widgetRender, optGT, getCurrentLimit, initialMutState, h]

/-- Witness for C1 at `maxValuesPerFacet = 2`. -/
theorem claim_exhaustiveness_witness :
    (2 ≤ 2 ∧
      (widgetRender ⟨"brand", "or", 2, false, 20, true, fun xs => xs⟩ initialMutState
        [⟨"Apple", 10, false⟩, ⟨"Samsung", 5, false⟩, ⟨"Sony", 3, false⟩]
        (some 2)).1.hasExhaustiveItems = false) :=
  ⟨by decide, claim_exhaustiveness.2.1 2 (by decide)⟩

/-- C6: every rendered payload's `canToggleShowMore` equals
`canShowMore || canShowLess` with
`canShowMore = showMore && !isFromSearch && !exhaustive` and
`canShowLess = isShowingMore && lastResults.length > limit`; and in the
scenario with three facet values, `limit = 2`, `showMore = true`,
`showMoreLimit = 5`, the render after `toggleShowMore` has
`isShowingMore = true` and `canShowLess = true`. -/
theorem claim_canToggleShowMore :
    (∀ (cfg : Config) (ms : WidgetMutState) (items : List RefinementItem)
        (isFromSearch isFirstSearch : Bool),
      (render cfg ms items isFromSearch isFirstSearch).canToggleShowMore =
        ((cfg.showMore && !isFromSearch && !ms.hasExhaustiveItems) ||
          (ms.isShowingMore && decide (ms.lastResultsFromMainSearch.length > cfg.limit))))
    ∧ ((toggleShowMore ⟨"brand", "or", 2, true, 5, true, fun xs => xs⟩
          (widgetRender ⟨"brand", "or", 2, true, 5, true, fun xs => xs⟩ initialMutState
            [⟨"Apple", 10, false⟩, ⟨"Samsung", 5, false⟩, ⟨"Sony", 3, false⟩] (some 5)).1
          [⟨"Apple", 10, false⟩, ⟨"Samsung", 5, false⟩, ⟨"Sony", 3, false⟩]
          (some 5)).2.isShowingMore = true
      ∧ ((toggleShowMore ⟨"brand", "or", 2, true, 5, true, fun xs => xs⟩
          (widgetRender ⟨"brand", "or", 2, true, 5, true, fun xs => xs⟩ initialMutState
            [⟨"Apple", 10, false⟩, ⟨"Samsung", 5, false⟩, ⟨"Sony", 3, false⟩] (some 5)).1
          [⟨"Apple", 10, false⟩, ⟨"Samsung", 5, false⟩, ⟨"Sony", 3, false⟩]
          (some 5)).1.isShowingMore &&
          decide ((toggleShowMore ⟨"brand", "or", 2, true, 5, true, fun xs => xs⟩
          (widgetRender ⟨"brand", "or", 2, true, 5, true, fun xs => xs⟩ initialMutState
            [⟨"Apple", 10, false⟩, ⟨"Samsung", 5, false⟩, ⟨"Sony", 3, false⟩] (some 5)).1
          [⟨"Apple", 10, false⟩, ⟨"Samsung", 5, false⟩, ⟨"Sony", 3, false⟩]
          (some 5)).1.lastResultsFromMainSearch.length > 2)) = true
      ∧ (toggleShowMore ⟨"brand", "or", 2, true, 5, true, fun xs => xs⟩
          (widgetRender ⟨"brand", "or", 2, true, 5, true, fun xs => xs⟩ initialMutState
            [⟨"Apple", 10, false⟩, ⟨"Samsung", 5, false⟩, ⟨"Sony", 3, false⟩] (some 5)).1
          [⟨"Apple", 10, false⟩, ⟨"Samsung", 5, false⟩, ⟨"Sony", 3, false⟩]
          (some 5)).2.canToggleShowMore = true) := by
  refine ⟨?_, rfl, rfl, rfl⟩
  intro cfg ms items isFromSearch isFirstSearch
  simp only [render, canShowLessCalc, canShowMoreCalc]
  exact Bool.or_comm _ _

/-- C8: for every query state, `dispose` with `operator = 'and'` unsets
`maxValuesPerFacet` and removes the attribute from the conjunctive facet
declarations while leaving the disjunctive ones unchanged, and symmetrically
for `operator = 'or'`; being a total function it never fails, also when the
attribute was never registered. -/
theorem claim_dispose (a : String) (limit smLimit : Nat) (sm esc : Bool)
    (tr : List RefinementItem → List RefinementItem) (state : SearchParameters) :
    ((dispose ⟨a, "and", limit, sm, smLimit, esc, tr⟩ state).maxValuesPerFacet = none ∧
      (dispose ⟨a, "and", limit, sm, smLimit, esc, tr⟩ state).facets =
        state.facets.filter (fun f => f != a) ∧
      (dispose ⟨a, "and", limit, sm, smLimit, esc, tr⟩ state).disjunctiveFacets =
        state.disjunctiveFacets)
    ∧ ((dispose ⟨a, "or", limit, sm, smLimit, esc, tr⟩ state).maxValuesPerFacet = none ∧
      (dispose ⟨a, "or", limit, sm, smLimit, esc, tr⟩ state).disjunctiveFacets =
        state.disjunctiveFacets.filter (fun f => f != a) ∧
      (dispose ⟨a, "or", limit, sm, smLimit, esc, tr⟩ state).facets = state.facets) := by
  have hand : dispose ⟨a, "and", limit, sm, smLimit, esc, tr⟩ state =
      SearchParameters.removeFacet { state with maxValuesPerFacet := none } a := by
    unfold dispose
    rw [if_pos rfl]
  have hor : dispose ⟨a, "or", limit, sm, smLimit, esc, tr⟩ state =
      SearchParameters.removeDisjunctiveFacet { state with maxValuesPerFacet := none } a := by
    unfold dispose
    rw [if_neg (by decide : ¬(("or" : String) = "and"))]
  constructor
  · rw [hand]
    unfold SearchParameters.removeFacet
    by_cases hc : state.facets.contains a = true
    · rw [if_pos hc]
      exact ⟨rfl, rfl, rfl⟩
    · rw [if_neg hc]
      refine ⟨rfl, ?_, rfl⟩
      have hall : ∀ f ∈ state.facets, (f != a) = true := by
        intro f hf
        rw [bne_iff_ne]
        intro hfa
        subst hfa
        exact hc (List.elem_eq_true_of_mem hf)
      exact (List.filter_eq_self.mpr hall).symm
  · rw [hor]
    unfold SearchParameters.removeDisjunctiveFacet
    by_cases hc : state.disjunctiveFacets.contains a = true
    · rw [if_pos hc]
      exact ⟨rfl, rfl, rfl⟩
    · rw [if_neg hc]
      refine ⟨rfl, ?_, rfl⟩
      have hall : ∀ f ∈ state.disjunctiveFacets, (f != a) = true := by
        intro f hf
        rw [bne_iff_ne]
        intro hfa
        subst hfa
        exact hc (List.elem_eq_true_of_mem hf)
      exact (List.filter_eq_self.mpr hall).symm

/-- C3: `getWidgetSearchParameters` sets `maxValuesPerFacet` to the maximum
of its current value (0 when unset) and the widget's requested limit
(`showMoreLimit` when `showMore` is on, `limit` otherwise), hence never
decreases it, and applying it twice with the same UI state yields the same
`maxValuesPerFacet` as applying it once. -/
theorem claim_maxValuesPerFacet (cfg : Config) (sp : SearchParameters) (ui : UIState) :
    ((getWidgetSearchParameters cfg sp ui).maxValuesPerFacet =
        some (max (sp.maxValuesPerFacet.getD 0)
          (if cfg.showMore then cfg.showMoreLimit else cfg.limit)))
    ∧ sp.maxValuesPerFacet.getD 0 ≤
        (getWidgetSearchParameters cfg sp ui).maxValuesPerFacet.getD 0
    ∧ (getWidgetSearchParameters cfg (getWidgetSearchParameters cfg sp ui) ui).maxValuesPerFacet
        = (getWidgetSearchParameters cfg sp ui).maxValuesPerFacet := by
  have key : ∀ s : SearchParameters,
      (getWidgetSearchParameters cfg s ui).maxValuesPerFacet =
        some (max (s.maxValuesPerFacet.getD 0)
          (if cfg.showMore then cfg.showMoreLimit else cfg.limit)) := by
    intro s
    by_cases hop : cfg.operator = "or"
    · simp only [getWidgetSearchParameters, hop, eq_self_iff_true, if_true]
      cases hv : lookupKey ui.refinementList cfg.attr with
      | none =>
        by_cases hd : cfg.operator = "or" <;>
          simp [hop, SearchParameters.maxValuesPerFacet_addDisjunctiveFacet,
            SearchParameters.clearRefinements]
      | some vs =>
        simp only [hop, eq_self_iff_true, if_true]
        rw [SearchParameters.maxValuesPerFacet_foldl_addDisjunctiveFacetRefinement]
        simp [SearchParameters.maxValuesPerFacet_addDisjunctiveFacet,
          SearchParameters.clearRefinements]
    · simp only [getWidgetSearchParameters, hop, if_false]
      cases hv : lookupKey ui.refinementList cfg.attr with
      | none =>
        simp [hop, SearchParameters.maxValuesPerFacet_addFacet,
          SearchParameters.clearRefinements]
      | some vs =>
        simp only [hop, if_false]
        rw [SearchParameters.maxValuesPerFacet_foldl_addFacetRefinement]
        simp [SearchParameters.maxValuesPerFacet_addFacet,
          SearchParameters.clearRefinements]
  refine ⟨key sp, ?_, ?_⟩
  · rw [key sp]
    simp only [Option.getD_some]
    exact le_max_left _ _
  · rw [key (getWidgetSearchParameters cfg sp ui), key sp]
    simp only [Option.getD_some]
    rw [max_eq_left (le_max_right _ _)]

/-- C7: `getWidgetState` returns the UI state unchanged when the query
state holds no refinement values for the attribute on the selected channel;
otherwise it writes exactly that value list under
`refinementList[attribute]`, leaving `configure` and every other
`refinementList` entry untouched. -/
theorem claim_getWidgetState_frame (cfg : Config) (ui : UIState) (sp : SearchParameters) :
    (((if cfg.operator = "or" then sp.getDisjunctiveRefinements cfg.attr
        else sp.getConjunctiveRefinements cfg.attr) = []) →
      getWidgetState cfg ui sp = ui)
    ∧ (((if cfg.operator = "or" then sp.getDisjunctiveRefinements cfg.attr
        else sp.getConjunctiveRefinements cfg.attr) ≠ []) →
      ((getWidgetState cfg ui sp).configure = ui.configure
        ∧ lookupKey (getWidgetState cfg ui sp).refinementList cfg.attr =
            some (if cfg.operator = "or" then sp.getDisjunctiveRefinements cfg.attr
              else sp.getConjunctiveRefinements cfg.attr)
        ∧ ∀ b : String, b ≠ cfg.attr →
            lookupKey (getWidgetState cfg ui sp).refinementList b =
              lookupKey ui.refinementList b)) := by
  constructor
  · intro h
    have hlen : (if cfg.operator = "or" then sp.getDisjunctiveRefinements cfg.attr
        else sp.getConjunctiveRefinements cfg.attr).length = 0 := by
      rw [h]
      rfl
    simp only [getWidgetState, if_pos hlen]
  · intro h
    have hlen : ¬((if cfg.operator = "or" then sp.getDisjunctiveRefinements cfg.attr
        else sp.getConjunctiveRefinements cfg.attr).length = 0) := by
      rw [List.length_eq_zero]
      exact h
    simp only [getWidgetState, if_neg hlen]
    refine ⟨trivial, ?_, ?_⟩
    · exact lookupKey_setKey_self _ _ _
    · intro b hb
      exact lookupKey_setKey_other _ _ _ _ hb

/-- Witness for C7 on concrete empty and non-empty refinement states. -/
theorem claim_getWidgetState_frame_witness :
    (getWidgetState ⟨"brand", "or", 10, false, 20, true, fun xs => xs⟩
        ⟨[("color", ["red"])], [("hitsPerPage", "5")]⟩
        ⟨[], [], [], [], none⟩ =
      ⟨[("color", ["red"])], [("hitsPerPage", "5")]⟩)
    ∧ (lookupKey (getWidgetState ⟨"brand", "or", 10, false, 20, true, fun xs => xs⟩
        ⟨[("color", ["red"])], [("hitsPerPage", "5")]⟩
        ⟨[], ["brand"], [], [("brand", ["Apple"])], none⟩).refinementList "brand" =
      some ["Apple"])
    ∧ (lookupKey (getWidgetState ⟨"brand", "or", 10, false, 20, true, fun xs => xs⟩
        ⟨[("color", ["red"])], [("hitsPerPage", "5")]⟩
        ⟨[], ["brand"], [], [("brand", ["Apple"])], none⟩).refinementList "color" =
      some ["red"]) := by
  refine ⟨?_, ?_, ?_⟩
  · exact (claim_getWidgetState_frame ⟨"brand", "or", 10, false, 20, true, fun xs => xs⟩
      ⟨[("color", ["red"])], [("hitsPerPage", "5")]⟩ ⟨[], [], [], [], none⟩).1 (by decide)
  · have h := (claim_getWidgetState_frame ⟨"brand", "or", 10, false, 20, true, fun xs => xs⟩
      ⟨[("color", ["red"])], [("hitsPerPage", "5")]⟩
      ⟨[], ["brand"], [], [("brand", ["Apple"])], none⟩).2 (by decide)
    simpa using h.2.1
  · have h := (claim_getWidgetState_frame ⟨"brand", "or", 10, false, 20, true, fun xs => xs⟩
      ⟨[("color", ["red"])], [("hitsPerPage", "5")]⟩
      ⟨[], ["brand"], [], [("brand", ["Apple"])], none⟩).2 (by decide)
    exact h.2.2 "color" (by decide)

/-- C10: in `getWidgetSearchParameters`, a present-but-empty value array for
the attribute (truthy in JS) takes the fold branch, so the attribute ends
with no entry in the selected refinements map (its refinements were
cleared); whereas an absent key (falsy `undefined`) takes the explicit-reset
branch, which writes an explicit empty-array entry. -/
theorem claim_empty_array_branch (cfg : Config) (sp : SearchParameters) (ui1 ui2 : UIState)
    (h1 : lookupKey ui1.refinementList cfg.attr = some [])
    (h2 : lookupKey ui2.refinementList cfg.attr = none) :
    (lookupKey (if cfg.operator = "or"
        then (getWidgetSearchParameters cfg sp ui1).disjunctiveFacetsRefinements
        else (getWidgetSearchParameters cfg sp ui1).facetsRefinements) cfg.attr = none)
    ∧ (lookupKey (if cfg.operator = "or"
        then (getWidgetSearchParameters cfg sp ui2).disjunctiveFacetsRefinements
        else (getWidgetSearchParameters cfg sp ui2).facetsRefinements) cfg.attr = some []) := by
  by_cases hop : cfg.operator = "or"
  · rw [if_pos hop, if_pos hop]
    constructor
    · simp only [getWidgetSearchParameters, hop, eq_self_iff_true, if_true, h1,
        List.foldl_nil]
      exact SearchParameters.lookupKey_disj_clear_add_withMax sp cfg.attr _
    · simp only [getWidgetSearchParameters, hop, eq_self_iff_true, if_true, h2]
      exact lookupKey_setKey_self _ _ _
  · rw [if_neg hop, if_neg hop]
    constructor
    · simp only [getWidgetSearchParameters, hop, if_false, h1, List.foldl_nil]
      exact SearchParameters.lookupKey_conj_clear_add_withMax sp cfg.attr _
    · simp only [getWidgetSearchParameters, hop, if_false, h2]
      exact lookupKey_setKey_self _ _ _

/-- Witness for C10 on a concrete state, with the value array present but
empty versus absent. -/
theorem claim_empty_array_branch_witness :
    (lookupKey (if ("or" : String) = "or"
        then (getWidgetSearchParameters ⟨"brand", "or", 2, false, 20, true, fun xs => xs⟩
            ⟨[], ["brand"], [], [("brand", ["Apple"])], some 3⟩
            ⟨[("brand", [])], []⟩).disjunctiveFacetsRefinements
        else (getWidgetSearchParameters ⟨"brand", "or", 2, false, 20, true, fun xs => xs⟩
            ⟨[], ["brand"], [], [("brand", ["Apple"])], some 3⟩
            ⟨[("brand", [])], []⟩).facetsRefinements) "brand" = none)
    ∧ (lookupKey (if ("or" : String) = "or"
        then (getWidgetSearchParameters ⟨"brand", "or", 2, false, 20, true, fun xs => xs⟩
            ⟨[], ["brand"], [], [("brand", ["Apple"])], some 3⟩
            ⟨[], []⟩).disjunctiveFacetsRefinements
        else (getWidgetSearchParameters ⟨"brand", "or", 2, false, 20, true, fun xs => xs⟩
            ⟨[], ["brand"], [], [("brand", ["Apple"])], some 3⟩
            ⟨[], []⟩).facetsRefinements) "brand" = some []) :=
  claim_empty_array_branch ⟨"brand", "or", 2, false, 20, true, fun xs => xs⟩
    ⟨[], ["brand"], [], [("brand", ["Apple"])], some 3⟩
    ⟨[("brand", [])], []⟩ ⟨[], []⟩ (by decide) (by decide)

/-- C2: for every query state, `getWidgetState` (over an empty UI state)
followed by `getWidgetSearchParameters` on the resulting UI state
reconstructs the same refinement value set for the attribute on the channel
selected by `operator`, as a set (modulo ordering and duplicates). -/
theorem claim_roundtrip (a op : String) (limit smLimit : Nat) (sm esc : Bool)
    (tr : List RefinementItem → List RefinementItem) (sp : SearchParameters) (v : String) :
    (v ∈ (if op = "or"
        then (getWidgetSearchParameters ⟨a, op, limit, sm, smLimit, esc, tr⟩ sp
            (getWidgetState ⟨a, op, limit, sm, smLimit, esc, tr⟩ emptyUIState
              sp)).getDisjunctiveRefinements a
        else (getWidgetSearchParameters ⟨a, op, limit, sm, smLimit, esc, tr⟩ sp
            (getWidgetState ⟨a, op, limit, sm, smLimit, esc, tr⟩ emptyUIState
              sp)).getConjunctiveRefinements a))
    ↔ (v ∈ (if op = "or" then sp.getDisjunctiveRefinements a
        else sp.getConjunctiveRefinements a)) := by
  by_cases hop : op = "or"
  · rw [if_pos hop, if_pos hop]
    by_cases hlen : (sp.getDisjunctiveRefinements a).length = 0
    · have hnil : sp.getDisjunctiveRefinements a = [] := List.length_eq_zero.mp hlen
      have hui : getWidgetState ⟨a, op, limit, sm, smLimit, esc, tr⟩ emptyUIState sp =
          emptyUIState := by
        simp only [getWidgetState, hop, eq_self_iff_true, if_true, hlen, if_pos]
      rw [hui, hnil]
      have hnone : lookupKey (emptyUIState.refinementList) a = none := rfl
      simp only [getWidgetSearchParameters, hop, eq_self_iff_true, if_true, hnone,
        SearchParameters.getDisjunctiveRefinements, lookupKey_setKey_self,
        Option.getD_some]
    · have hui : getWidgetState ⟨a, op, limit, sm, smLimit, esc, tr⟩ emptyUIState sp =
          { emptyUIState with
              refinementList := setKey emptyUIState.refinementList a
                (sp.getDisjunctiveRefinements a) } := by
        simp only [getWidgetState, hop, eq_self_iff_true, if_true, if_neg hlen]
      rw [hui]
      have hlook : lookupKey (setKey emptyUIState.refinementList a
          (sp.getDisjunctiveRefinements a)) a = some (sp.getDisjunctiveRefinements a) :=
        lookupKey_setKey_self _ _ _
      simp only [getWidgetSearchParameters, hop, eq_self_iff_true, if_true, hlook]
      rw [SearchParameters.mem_getDisjunctiveRefinements_foldl,
        SearchParameters.getDisjunctiveRefinements_clear_add_withMax]
      simp
  · rw [if_neg hop, if_neg hop]
    by_cases hlen : (sp.getConjunctiveRefinements a).length = 0
    · have hnil : sp.getConjunctiveRefinements a = [] := List.length_eq_zero.mp hlen
      have hui : getWidgetState ⟨a, op, limit, sm, smLimit, esc, tr⟩ emptyUIState sp =
          emptyUIState := by
        simp only [getWidgetState, hop, if_false, hlen, if_pos]
      rw [hui, hnil]
      have hnone : lookupKey (emptyUIState.refinementList) a = none := rfl
      simp only [getWidgetSearchParameters, hop, if_false, hnone,
        SearchParameters.getConjunctiveRefinements, lookupKey_setKey_self,
        Option.getD_some]
    · have hui : getWidgetState ⟨a, op, limit, sm, smLimit, esc, tr⟩ emptyUIState sp =
          { emptyUIState with
              refinementList := setKey emptyUIState.refinementList a
                (sp.getConjunctiveRefinements a) } := by
        simp only [getWidgetState, hop, if_false, if_neg hlen]
      rw [hui]
      have hlook : lookupKey (setKey emptyUIState.refinementList a
          (sp.getConjunctiveRefinements a)) a = some (sp.getConjunctiveRefinements a) :=
        lookupKey_setKey_self _ _ _
      simp only [getWidgetSearchParameters, hop, if_false, hlook]
      rw [SearchParameters.mem_getConjunctiveRefinements_foldl,
        SearchParameters.getConjunctiveRefinements_clear_add_withMax]
      simp

end ConnectRefinementList

namespace ConnectConfigure

/-- C9: in the configure connector, a key present in both the stored
`widgetParams.searchParameters` and `uiState.configure` resolves to the
stored widget parameter's value: `getWidgetState` writes it into
`uiState.configure` overriding the existing entry, and
`getWidgetSearchParameters` merges it into the query state overriding the
`uiState.configure` value.  (JS object keys are unique, embedded as the
`Nodup` hypotheses.) -/
theorem claim_configure_precedence (wsp : PlainParams) (state : PlainParams) (ui : UIState)
    (key v : String)
    (hn : (wsp.map Prod.fst).Nodup)
    (hnc : (ui.configure.map Prod.fst).Nodup)
    (hw : lookupKey wsp key = some v)
    (hkc : containsKey ui.configure key = true) :
    lookupKey (getWidgetState wsp ui).configure key = some v
    ∧ lookupKey (getWidgetSearchParameters wsp state ui) key = some v := by
  constructor
  · show lookupKey (spreadMerge ui.configure wsp) key = some v
    exact lookupKey_spreadMerge_of_lookup ui.configure wsp key v hn hw
  · show lookupKey (spreadMerge state (spreadMerge ui.configure wsp)) key = some v
    have hinner : lookupKey (spreadMerge ui.configure wsp) key = some v :=
      lookupKey_spreadMerge_of_lookup ui.configure wsp key v hn hw
    have hnodup := keys_spreadMerge_nodup ui.configure wsp hnc
    exact lookupKey_spreadMerge_of_lookup state (spreadMerge ui.configure wsp) key v
      hnodup hinner

/-- Witness for C9: `hitsPerPage` set both in the widget parameters and in
`uiState.configure`. -/
theorem claim_configure_precedence_witness :
    (lookupKey (getWidgetState [("hitsPerPage", "10")]
        ⟨[], [("hitsPerPage", "5"), ("page", "2")]⟩).configure "hitsPerPage" = some "10")
    ∧ (lookupKey (getWidgetSearchParameters [("hitsPerPage", "10")] [("query", "x")]
        ⟨[], [("hitsPerPage", "5"), ("page", "2")]⟩) "hitsPerPage" = some "10") :=
  claim_configure_precedence [("hitsPerPage", "10")] [("query", "x")]
    ⟨[], [("hitsPerPage", "5"), ("page", "2")]⟩ "hitsPerPage" "10"
    (by decide) (by decide) (by decide) (by decide)

end ConnectConfigure

end InstantSearch
